import Mathlib

/-!
# A shallow embedding of `opn.py` (PyOPN, OPN-2001 barcode scanner protocol)

Byte streams are modelled as `List Nat` (each element a byte value, `< 256`),
Python exceptions as an error type `PErr`, fallible code as `Except` / `Option`.
Each definition is translated from the Python source; definitions that instead
follow the specification's words (for comparison against the source) say so in
their doc strings.
-/

namespace PyOPN

/-- Calendar datetime, mirroring Python's `datetime.datetime` as used by
`opn.py` (second resolution; microseconds and timezones never occur). -/
structure DateTime where
  year : Nat
  month : Nat
  day : Nat
  hour : Nat
  minute : Nat
  second : Nat
deriving DecidableEq, Repr

/-- The exceptions the Python code can raise while building or parsing:
`structError` models `struct.error` (wrong buffer size for a fixed-size format,
or an invalid format string), `invalidFrame` models `InvalidFrameException`
(checksum mismatch), `valueError` models `ValueError` from the
`datetime.datetime` constructor (out-of-range date/time components). -/
inductive PErr where
  | structError
  | invalidFrame
  | valueError
deriving DecidableEq, Repr

/-- The 256-entry CRC lookup table `crc_map`, verbatim from `opn.py`. -/
def crc_map : List Nat := [0x0000, 0xC0C1, 0xC181, 0x0140, 0xC301, 0x03C0, 0x0280, 0xC241, 0xC601, 0x06C0, 0x0780, 0xC741, 0x0500, 0xC5C1, 0xC481, 0x0440, 0xCC01, 0x0CC0, 0x0D80, 0xCD41, 0x0F00, 0xCFC1, 0xCE81, 0x0E40, 0x0A00, 0xCAC1, 0xCB81, 0x0B40, 0xC901, 0x09C0, 0x0880, 0xC841, 0xD801, 0x18C0, 0x1980, 0xD941, 0x1B00, 0xDBC1, 0xDA81, 0x1A40, 0x1E00, 0xDEC1, 0xDF81, 0x1F40, 0xDD01, 0x1DC0, 0x1C80, 0xDC41, 0x1400, 0xD4C1, 0xD581, 0x1540, 0xD701, 0x17C0, 0x1680, 0xD641, 0xD201, 0x12C0, 0x1380, 0xD341, 0x1100, 0xD1C1, 0xD081, 0x1040, 0xF001, 0x30C0, 0x3180, 0xF141, 0x3300, 0xF3C1, 0xF281, 0x3240, 0x3600, 0xF6C1, 0xF781, 0x3740, 0xF501, 0x35C0, 0x3480, 0xF441, 0x3C00, 0xFCC1, 0xFD81, 0x3D40, 0xFF01, 0x3FC0, 0x3E80, 0xFE41, 0xFA01, 0x3AC0, 0x3B80, 0xFB41, 0x3900, 0xF9C1, 0xF881, 0x3840, 0x2800, 0xE8C1, 0xE981, 0x2940, 0xEB01, 0x2BC0, 0x2A80, 0xEA41, 0xEE01, 0x2EC0, 0x2F80, 0xEF41, 0x2D00, 0xEDC1, 0xEC81, 0x2C40, 0xE401, 0x24C0, 0x2580, 0xE541, 0x2700, 0xE7C1, 0xE681, 0x2640, 0x2200, 0xE2C1, 0xE381, 0x2340, 0xE101, 0x21C0, 0x2080, 0xE041, 0xA001, 0x60C0, 0x6180, 0xA141, 0x6300, 0xA3C1, 0xA281, 0x6240, 0x6600, 0xA6C1, 0xA781, 0x6740, 0xA501, 0x65C0, 0x6480, 0xA441, 0x6C00, 0xACC1, 0xAD81, 0x6D40, 0xAF01, 0x6FC0, 0x6E80, 0xAE41, 0xAA01, 0x6AC0, 0x6B80, 0xAB41, 0x6900, 0xA9C1, 0xA881, 0x6840, 0x7800, 0xB8C1, 0xB981, 0x7940, 0xBB01, 0x7BC0, 0x7A80, 0xBA41, 0xBE01, 0x7EC0, 0x7F80, 0xBF41, 0x7D00, 0xBDC1, 0xBC81, 0x7C40, 0xB401, 0x74C0, 0x7580, 0xB541, 0x7700, 0xB7C1, 0xB681, 0x7640, 0x7200, 0xB2C1, 0xB381, 0x7340, 0xB101, 0x71C0, 0x7080, 0xB041, 0x5000, 0x90C1, 0x9181, 0x5140, 0x9301, 0x53C0, 0x5280, 0x9241, 0x9601, 0x56C0, 0x5780, 0x9741, 0x5500, 0x95C1, 0x9481, 0x5440, 0x9C01, 0x5CC0, 0x5D80, 0x9D41, 0x5F00, 0x9FC1, 0x9E81, 0x5E40, 0x5A00, 0x9AC1, 0x9B81, 0x5B40, 0x9901, 0x59C0, 0x5880, 0x9841, 0x8801, 0x48C0, 0x4980, 0x8941, 0x4B00, 0x8BC1, 0x8A81, 0x4A40, 0x4E00, 0x8EC1, 0x8F81, 0x4F40, 0x8D01, 0x4DC0, 0x4C80, 0x8C41, 0x4400, 0x84C1, 0x8581, 0x4540, 0x8701, 0x47C0, 0x4680, 0x8641, 0x8201, 0x42C0, 0x4380, 0x8341, 0x4100, 0x81C1, 0x8081, 0x4040]

/-- Function `calculate_crc` from `opn.py`: start from register `0xffff`; per byte set
`tmp = (crc_value & 0xff) ^ byte` and
`crc_value = ((crc_value >> 8) & 0xff) ^ crc_map[tmp]`; return
`~crc_value & 0xffff`.  For a nonnegative Python int, `~x & 0xffff` equals
`(x &&& 0xffff) ^^^ 0xffff`. -/
def calculate_crc (data : List Nat) : Nat :=
  let r := data.foldl (fun crc_value byte =>
    let tmp := (crc_value &&& 0xff) ^^^ byte
    ((crc_value >>> 8) &&& 0xff) ^^^ crc_map.getD tmp 0) 0xffff
  (r &&& 0xffff) ^^^ 0xffff

/-- Modelled from the spec (§4.1): one bit step of the reflected CRC-16
generator with polynomial `0xA001`. -/
def crcGenStep (r : Nat) : Nat :=
  if r &&& 1 = 1 then (r >>> 1) ^^^ 0xA001 else r >>> 1

/-- Modelled from the spec (§4.1): the table entry for a seed byte is eight
generator steps applied to it. -/
def genEntry (b : Nat) : Nat := crcGenStep^[8] b

/-- Modelled from the spec (§4.1): the generated 256-entry reflected CRC-16
table for polynomial `0xA001`. -/
def genTable : List Nat := (List.range 256).map genEntry

/-- Modelled from the spec (§4.1): CRC-16 with initial register `0xFFFF`,
reflected table lookup per byte using the *generated* table, final
one's-complement of the 16-bit register. -/
def crcSpec (data : List Nat) : Nat :=
  let r := data.foldl (fun register byte =>
    ((register >>> 8) &&& 0xff) ^^^ genTable.getD ((register &&& 0xff) ^^^ byte) 0) 0xffff
  (r &&& 0xffff) ^^^ 0xffff

/-- Gregorian leap-year rule, as used by Python's `datetime`. -/
def isLeapYear (y : Nat) : Bool := (y % 4 == 0 && y % 100 != 0) || y % 400 == 0

/-- Number of days in a month, as used by Python's `datetime`. -/
def daysInMonth (y m : Nat) : Nat :=
  if m = 2 then (if isLeapYear y then 29 else 28)
  else if m = 4 ∨ m = 6 ∨ m = 9 ∨ m = 11 then 30
  else 31

/-- Python's `datetime.datetime(year, month, day, hour, minute, second)`
constructor: yields the datetime when every component is in range
(`MINYEAR = 1 ≤ year ≤ MAXYEAR = 9999`, `1 ≤ month ≤ 12`,
`1 ≤ day ≤` days in the month, `hour ≤ 23`, `minute ≤ 59`, `second ≤ 59`),
and raises `ValueError` (here `none`) otherwise. -/
def datetime_mk (y mo d h mi s : Nat) : Option DateTime :=
  if 1 ≤ y ∧ y ≤ 9999 ∧ 1 ≤ mo ∧ mo ≤ 12 ∧ 1 ≤ d ∧ d ≤ daysInMonth y mo
      ∧ h ≤ 23 ∧ mi ≤ 59 ∧ s ≤ 59
  then some ⟨y, mo, d, h, mi, s⟩ else none

/-- Function `timestampToDate` from `opn.py`: extract the bit fields of the packed
32-bit device timestamp and hand them to the `datetime.datetime`
constructor. -/
def timestampToDate (value : Nat) : Option DateTime :=
  datetime_mk ((value &&& 0x3F) + 2000)
    ((value >>> 6) &&& 0x0F)
    ((value >>> 10) &&& 0x1F)
    ((value >>> 15) &&& 0x1F)
    ((value >>> 20) &&& 0x3F)
    ((value >>> 26) &&& 0x3F)

/-- Function `dateToTimestamp` from `opn.py`: `struct.pack` of format `>BBBBBB` over
`[second, minute, hour, day, month, year - 2000]`.  `struct.pack` with `B`
raises `struct.error` (here `none`) unless each value is in `0..255`; for the
year byte that means `2000 ≤ year ≤ 2255` (below 2000 the Python value
`year - 2000` is negative). -/
def dateToTimestamp (date : DateTime) : Option (List Nat) :=
  if date.second ≤ 255 ∧ date.minute ≤ 255 ∧ date.hour ≤ 255 ∧ date.day ≤ 255
      ∧ date.month ≤ 255 ∧ 2000 ≤ date.year ∧ date.year ≤ 2255
  then some [date.second, date.minute, date.hour, date.day, date.month, date.year - 2000]
  else none

/-- Big-endian bytes to an unsigned integer, as `struct.unpack` does for the
formats `>H`, `>I` and `>Q`. -/
def beBytesToNat (l : List Nat) : Nat := l.foldl (fun a b => a * 256 + b) 0

/-- The fields a generic `Frame` holds after a successful `receive`. -/
structure RFrame where
  opcode : Nat
  unk1 : Nat
  unk2 : Nat
  flen : Nat
  payload : List Nat
  crc : Nat
deriving DecidableEq, Repr

/-- Method `Frame._stream_read`: `stream.read(length)` plus appending to `self.raw`.
The Python code performs no length check on the result; on a stream that has
been closed early the read simply returns the (possibly shorter) remainder.
Here the stream is a byte list and the result is the pair
(bytes read, rest of the stream). -/
def streamRead (s : List Nat) (n : Nat) : List Nat × List Nat := (s.take n, s.drop n)

/-- Method `Frame.build` from `opn.py`: `struct.pack('>BBB%ds' % length, opcode, unk1,
((unk2 & 0x7) << 5) | (length & 0x1f), payload)` with `length = len(payload)`,
then one zero pad byte iff the payload is nonempty, then the big-endian CRC-16
of everything emitted so far.  Note `%ds` with `length = len(payload)` emits the
whole payload; only the length *field* is masked to its low 5 bits, and no
exception is raised for payloads longer than 31 bytes. -/
def Frame.build (opcode unk1 unk2 : Nat) (payload : List Nat) : List Nat :=
  let len := payload.length
  let data := [opcode, unk1, ((unk2 &&& 0x7) <<< 5) ||| (len &&& 0x1f)] ++ payload
      ++ (if 0 < len then [0] else [])
  let c := calculate_crc data
  data ++ [c >>> 8, c &&& 0xff]

/-- Method `Frame.receive` followed by the generic `Frame.receive_data` from `opn.py`:
read 2 header bytes (`struct.unpack('BB', ...)` requires exactly 2), read the
length byte (`'B'` requires exactly 1), split it into `unk2` (high 3 bits) and
`length` (low 5 bits), read `length` payload bytes (unchecked; the generic
`parse_payload` does nothing), read and discard one pad byte iff `length > 0`
(unchecked), read 2 checksum bytes (`'>H'` requires exactly 2), and finally
compare the received checksum with `calculate_crc` of every byte read before
it (`self.raw[:-2]`), raising `InvalidFrameException` on mismatch. -/
def Frame.receive (s : List Nat) : Except PErr RFrame :=
  let hdr := (streamRead s 2).1
  let s1 := (streamRead s 2).2
  if hdr.length = 2 then
    let opcode := hdr.getD 0 0
    let unk1 := hdr.getD 1 0
    let lb := (streamRead s1 1).1
    let s2 := (streamRead s1 1).2
    if lb.length = 1 then
      let lbyte := lb.getD 0 0
      let unk2 := (lbyte >>> 5) &&& 0x7
      let len := lbyte &&& 0x1f
      let payload := (streamRead s2 len).1
      let s3 := (streamRead s2 len).2
      let padRead := if 0 < len then (streamRead s3 1).1 else []
      let s4 := if 0 < len then (streamRead s3 1).2 else s3
      let crcB := (streamRead s4 2).1
      if crcB.length = 2 then
        let crc := ((crcB.getD 0 0) <<< 8) ||| crcB.getD 1 0
        if calculate_crc (hdr ++ lb ++ payload ++ padRead) = crc then
          .ok ⟨opcode, unk1, unk2, len, payload, crc⟩
        else .error .invalidFrame
      else .error .structError
    else .error .structError
  else .error .structError

/-- Method `InterrogateResponseFrame.parse_payload` from `opn.py`:
`struct.unpack('>xQ8s', payload)`.  The format needs exactly
1 + 8 + 8 = 17 bytes (one skipped byte, the 8-byte big-endian device id, the
8-byte firmware string); any other payload size raises `struct.error`. -/
def InterrogateResponseFrame.parse_payload (payload : List Nat) :
    Except PErr (Nat × List Nat) :=
  if payload.length = 17 then
    .ok (beBytesToNat ((payload.drop 1).take 8), (payload.drop 9).take 8)
  else .error .structError

/-- Method `SetTimeResponseFrame.parse_payload` from `opn.py`:
`struct.unpack('>BBBBBB', payload)` (exactly 6 bytes, else `struct.error`)
into `second, minute, hour, day, month, year`, then `year += 2000` and
`datetime.datetime(year, month, day, hour, minute, second)` (which can raise
`ValueError`). -/
def SetTimeResponseFrame.parse_payload (payload : List Nat) : Except PErr DateTime :=
  if payload.length = 6 then
    match datetime_mk (payload.getD 5 0 + 2000) (payload.getD 4 0) (payload.getD 3 0)
        (payload.getD 2 0) (payload.getD 1 0) (payload.getD 0 0) with
    | some d => .ok d
    | none => .error .valueError
  else .error .structError

/-- A scanned barcode record, mirroring the `Barcode` class of `opn.py`. -/
structure Barcode where
  symbology : Nat
  barcode : List Nat
  timestamp : DateTime
deriving DecidableEq, Repr

/-- The fields a `GetDataResponseFrame` holds after a successful `receive`,
together with the part of the stream its `receive_data` left unconsumed. -/
structure GDFrame where
  opcode : Nat
  unk1 : Nat
  deviceId : Nat
  barcodes : List Barcode
  leftover : List Nat
deriving DecidableEq, Repr

/-- The `while True` record loop of `GetDataResponseFrame.receive_data`:
read one length byte (`'B'` needs exactly 1 byte; an exhausted stream raises
`struct.error`); a value of 0 ends the loop; otherwise read `length` bytes and
`struct.unpack('>B%dsI' % (length - 5), ...)` them.  For `length` in 1..4 the
Python format string itself carries a negative count and `struct` raises; for
`length ≥ 5` the format needs exactly `length` bytes and splits them into one
symbology byte, `length - 5` barcode bytes and a 4-byte big-endian packed
timestamp, decoded with `timestampToDate` (which can raise `ValueError`).
Records are accumulated in arrival order; the unconsumed rest of the stream is
returned alongside.  `fuel` bounds the number of loop iterations: every
iteration consumes at least one byte of the stream before recursing, so the
wrapper `readRecords` passes the stream length and the fuel-zero branch (which
mirrors the exhausted-stream `struct.error`) is never the deciding one. -/
def readRecordsFuel : Nat → List Nat → Except PErr (List Barcode × List Nat)
  | _, [] => .error .structError
  | 0, _ :: _ => .error .structError
  | fuel + 1, l :: rest =>
    if l = 0 then .ok ([], rest)
    else if l < 5 then .error .structError
    else
      let chunk := rest.take l
      if chunk.length = l then
        match timestampToDate (beBytesToNat (chunk.drop (l - 4))) with
        | some d =>
          match readRecordsFuel fuel (rest.drop l) with
          | .ok (bs, s) => .ok (⟨chunk.getD 0 0, (chunk.drop 1).take (l - 5), d⟩ :: bs, s)
          | .error e => .error e
        | none => .error .valueError
      else .error .structError

/-- The record loop, run with enough fuel for the whole stream. -/
def readRecords (s : List Nat) : Except PErr (List Barcode × List Nat) :=
  readRecordsFuel s.length s

/-- Method `Frame.receive` as inherited by `GetDataResponseFrame`: read the 2 header
bytes (`'BB'`, exactly 2), then the *overridden* `receive_data`: an 8-byte
big-endian device id (`'>Q'`, exactly 8) followed by the record loop.  Note:
on this path no length byte, no pad byte and no checksum bytes are read, and
no CRC comparison is performed. -/
def GetDataResponseFrame.receive (s : List Nat) : Except PErr GDFrame :=
  let hdr := (streamRead s 2).1
  let s1 := (streamRead s 2).2
  if hdr.length = 2 then
    let idB := (streamRead s1 8).1
    let s2 := (streamRead s1 8).2
    if idB.length = 8 then
      match readRecords s2 with
      | .ok (bs, rest) => .ok ⟨hdr.getD 0 0, hdr.getD 1 0, beBytesToNat idB, bs, rest⟩
      | .error e => .error e
    else .error .structError
  else .error .structError

/-- Modelled from the spec (§4.2, testable property 3): `encode_bits` packs a
calendar datetime into the 32-bit wire layout, bits 0-5 `year - 2000`,
bits 6-9 `month`, bits 10-14 `day`, bits 15-19 `hour`, bits 20-25 `minute`,
bits 26-31 `second`.  The source has no such encoder; this is the claim's
comparison point for the decoder `timestampToDate`. -/
def encode_bits (d : DateTime) : Nat :=
  (d.year - 2000) ||| (d.month <<< 6) ||| (d.day <<< 10) ||| (d.hour <<< 15)
    ||| (d.minute <<< 20) ||| (d.second <<< 26)

/-- Method `OpticonAPI.set_time` from `opn.py` is declared as
`def set_time(self, date=datetime.datetime.now())`.  In Python a default
argument expression is evaluated exactly once, when the `def` statement runs
(here: when the class body executes at module load), so a call without an
explicit date always uses that single captured value.  `defaultCaptured` is
the datetime captured at class-definition time and `wallClockAtCall` the
current time at the moment of the call; the code path of an argumentless call
sends `dateToTimestamp` of the former and never consults the latter. -/
def set_time_payload (defaultCaptured wallClockAtCall : DateTime) :
    Option (List Nat) :=
  dateToTimestamp defaultCaptured

/-- Valid calendar date/time components in the spec's sense (§4.2, §7): month
and day in calendar range for the year, hour ≤ 23, minute ≤ 59, second ≤ 59. -/
def isValidDateTime (d : DateTime) : Prop :=
  1 ≤ d.month ∧ d.month ≤ 12 ∧ 1 ≤ d.day ∧ d.day ≤ daysInMonth d.year d.month
    ∧ d.hour ≤ 23 ∧ d.minute ≤ 59 ∧ d.second ≤ 59

instance (d : DateTime) : Decidable (isValidDateTime d) := by
  unfold isValidDateTime
  exact inferInstance

/-- The bit fields of a packed 32-bit timestamp, spelled exactly as the claim
(and the source) extracts them. -/
def tsFields (v : Nat) : DateTime :=
  ⟨(v &&& 0x3F) + 2000, (v >>> 6) &&& 0x0F, (v >>> 10) &&& 0x1F,
    (v >>> 15) &&& 0x1F, (v >>> 20) &&& 0x3F, (v >>> 26) &&& 0x3F⟩

/-! ## Bit-manipulation helpers -/

theorem and31_of_le {n : Nat} (h : n ≤ 31) : n &&& 31 = n := by
  have h2 : n < 2 ^ 5 := by omega
  calc n &&& 31 = n &&& (2 ^ 5 - 1) := by norm_num
    _ = n := Nat.and_pow_two_sub_one_of_lt_two_pow h2

theorem or_shift5_and31 (a x : Nat) : ((a <<< 5) ||| x) &&& 31 = x &&& 31 := by
  apply Nat.eq_of_testBit_eq
  intro i
  have h31 : (31 : Nat) = 2 ^ 5 - 1 := by norm_num
  simp only [Nat.testBit_and, Nat.testBit_or, Nat.testBit_shiftLeft, h31,
    Nat.testBit_two_pow_sub_one]
  by_cases h : i < 5
  · have h2 : ¬ (i ≥ 5) := by omega
    simp [h, h2]
  · simp [h]

theorem or_shift5_shr5_and7 (a x : Nat) (hx : x < 32) :
    (((a <<< 5) ||| x) >>> 5) &&& 7 = a &&& 7 := by
  apply Nat.eq_of_testBit_eq
  intro i
  simp only [Nat.testBit_and, Nat.testBit_shiftRight, Nat.testBit_or, Nat.testBit_shiftLeft]
  have hle : 5 + i ≥ 5 := by omega
  have hxbit : x.testBit (5 + i) = false := by
    apply Nat.testBit_lt_two_pow
    calc x < 32 := hx
      _ ≤ 2 ^ (5 + i) := by
          calc (32 : Nat) = 2 ^ 5 := by norm_num
            _ ≤ 2 ^ (5 + i) := Nat.pow_le_pow_right (by norm_num) (by omega)
  simp [hle, hxbit, Nat.add_sub_cancel_left]

theorem shift8_recombine (c : Nat) : ((c >>> 8) <<< 8) ||| (c &&& 0xff) = c := by
  apply Nat.eq_of_testBit_eq
  intro i
  have h255 : (0xff : Nat) = 2 ^ 8 - 1 := by norm_num
  simp only [Nat.testBit_or, Nat.testBit_shiftLeft, Nat.testBit_shiftRight, Nat.testBit_and,
    h255, Nat.testBit_two_pow_sub_one]
  by_cases h : i < 8
  · have h2 : ¬ (i ≥ 8) := by omega
    simp [h, h2]
  · have h2 : i ≥ 8 := by omega
    have h3 : 8 + (i - 8) = i := by omega
    simp [h, h2, h3]

theorem or_shift_add (a b n : Nat) (hb : b < 2 ^ n) : (a <<< n) ||| b = 2 ^ n * a + b := by
  rw [Nat.shiftLeft_eq, Nat.mul_comm]
  exact (Nat.mul_add_lt_is_or hb a).symm

set_option maxRecDepth 4096 in
/-- The verbatim `crc_map` table coincides with the generated reflected
CRC-16 table for polynomial `0xA001`. -/
theorem crc_map_eq_genTable : crc_map = genTable := by decide

/-! ## Claim theorems -/

/-- Claim C6: `calculate_crc` starts from register `0xFFFF`, applies per byte
`tmp = (register & 0xFF) XOR byte; register = ((register >> 8) & 0xFF) XOR
table[tmp]` and returns `~register & 0xFFFF`; and its 256-entry lookup table
equals the table generated by the standard reflected CRC-16 algorithm with
polynomial `0xA001` for all 256 seed bytes — so `calculate_crc` coincides with
the spec-described algorithm `crcSpec` on every byte sequence. -/
theorem c6_crc_algorithm_and_table :
    crc_map = genTable ∧ ∀ data : List Nat, calculate_crc data = crcSpec data := by
  refine ⟨crc_map_eq_genTable, fun data => ?_⟩
  unfold calculate_crc crcSpec
  simp only [crc_map_eq_genTable]

/-- Claim C10: two argumentless `set_time` calls send the same 6-byte payload,
whatever the wall-clock time of each call is: the payload depends only on the
default datetime captured once at class-definition time. -/
theorem c10_set_time_default_captured_once (d w1 w2 : DateTime) :
    set_time_payload d w1 = set_time_payload d w2
      ∧ set_time_payload d w1 = dateToTimestamp d :=
  ⟨rfl, rfl⟩

/-- Claim C4: for every 32-bit value `v`, `timestampToDate` decodes exactly the
fields `year = (v & 0x3F) + 2000`, `month = (v >> 6) & 0x0F`,
`day = (v >> 10) & 0x1F`, `hour = (v >> 15) & 0x1F`, `minute = (v >> 20) & 0x3F`,
`second = (v >> 26) & 0x3F`, and fails (with the `ValueError` the spec calls
`InvalidTimestamp`) exactly when those fields do not form a valid calendar
date/time. -/
theorem c4_timestampToDate_fields (v : Nat) (hv : v < 4294967296) :
    (isValidDateTime (tsFields v) → timestampToDate v = some (tsFields v))
      ∧ (¬ isValidDateTime (tsFields v) → timestampToDate v = none) := by
  have hy : v &&& 0x3F ≤ 63 := Nat.and_le_right
  unfold timestampToDate datetime_mk isValidDateTime tsFields
  constructor
  · intro hval
    obtain ⟨h1, h2, h3, h4, h5, h6, h7⟩ := hval
    rw [if_pos ⟨by omega, by omega, h1, h2, h3, h4, h5, h6, h7⟩]
  · intro hval
    rw [if_neg]
    intro hcond
    exact hval hcond.2.2

theorem c4_witness :
    timestampToDate 2716155221 = some ⟨2021, 5, 15, 10, 30, 40⟩ := by
  have h := (c4_timestampToDate_fields 2716155221 (by norm_num)).1 (by decide)
  rw [h]
  decide

/-- How the generic receive path reacts to a stream that is an exact frame
shape: header, length byte, a payload of the declared length, a pad of the
declared presence, and two checksum bytes.  The result hinges only on the
checksum comparison. -/
theorem receive_parts (opcode unk1 lbyte hi lo : Nat) (payload pad : List Nat)
    (hpl : payload.length = lbyte &&& 0x1f)
    (hpadlen : pad.length = if 0 < lbyte &&& 0x1f then 1 else 0) :
    Frame.receive (opcode :: unk1 :: lbyte :: (payload ++ pad ++ [hi, lo])) =
      if calculate_crc ([opcode, unk1, lbyte] ++ payload ++ pad) = (hi <<< 8) ||| lo then
        .ok ⟨opcode, unk1, (lbyte >>> 5) &&& 0x7, lbyte &&& 0x1f, payload, (hi <<< 8) ||| lo⟩
      else .error .invalidFrame := by
  simp only [Frame.receive, streamRead, List.take_succ_cons, List.take_zero, List.drop_succ_cons,
    List.drop_zero, List.length_cons, List.length_nil, List.getD_cons_zero, List.getD_cons_succ,
    List.append_assoc]
  rw [List.take_left' hpl, List.drop_left' hpl]
  by_cases hpos : 0 < lbyte &&& 0x1f
  · have hpadlen1 : pad.length = 1 := by rw [hpadlen, if_pos hpos]
    rw [if_pos hpos, if_pos hpos, List.take_left' hpadlen1, List.drop_left' hpadlen1]
    simp [List.append_assoc]
  · have hpade : pad = [] := by
      have : pad.length = 0 := by rw [hpadlen, if_neg hpos]
      exact List.eq_nil_of_length_eq_zero this
    subst hpade
    rw [if_neg hpos, if_neg hpos]
    simp [List.append_assoc]

/-- A frame built from a payload of at most 31 bytes parses back through the
generic receive path as a success, with the same opcode, flag byte and
payload. -/
theorem build_receive_ok (opcode unk1 unk2 : Nat) (payload : List Nat)
    (hlen : payload.length ≤ 31) :
    ∃ c, Frame.receive (Frame.build opcode unk1 unk2 payload) =
      .ok ⟨opcode, unk1, unk2 &&& 0x7, payload.length, payload, c⟩ := by
  have hlb31 : (((unk2 &&& 0x7) <<< 5) ||| (payload.length &&& 0x1f)) &&& 0x1f
      = payload.length := by
    rw [or_shift5_and31, Nat.and_assoc, Nat.and_self]
    exact and31_of_le hlen
  have hunk2 : ((((unk2 &&& 0x7) <<< 5) ||| (payload.length &&& 0x1f)) >>> 5) &&& 0x7
      = unk2 &&& 0x7 := by
    rw [or_shift5_shr5_and7 _ _ (by rw [and31_of_le hlen]; omega), Nat.and_assoc, Nat.and_self]
  refine ⟨calculate_crc ([opcode, unk1, ((unk2 &&& 0x7) <<< 5) ||| (payload.length &&& 0x1f)]
      ++ payload ++ (if 0 < payload.length then [0] else [])), ?_⟩
  have hbuild : Frame.build opcode unk1 unk2 payload
      = opcode :: unk1 :: (((unk2 &&& 0x7) <<< 5) ||| (payload.length &&& 0x1f)) ::
        (payload ++ (if 0 < payload.length then [0] else [])
          ++ [calculate_crc ([opcode, unk1, ((unk2 &&& 0x7) <<< 5) ||| (payload.length &&& 0x1f)]
              ++ payload ++ (if 0 < payload.length then [0] else [])) >>> 8,
            calculate_crc ([opcode, unk1, ((unk2 &&& 0x7) <<< 5) ||| (payload.length &&& 0x1f)]
              ++ payload ++ (if 0 < payload.length then [0] else [])) &&& 0xff]) := by
    simp [Frame.build, List.append_assoc]
  rw [hbuild, receive_parts _ _ _ _ _ _ _ hlb31.symm
    (by rw [hlb31]; by_cases h : 0 < payload.length <;> simp [h])]
  rw [shift8_recombine, if_pos rfl, hunk2, hlb31]

/-- Claim C1 (amended: restricted to payloads of at most 31 bytes; for longer
payloads the claim fails, see the counterexample): building a frame whose
payload is `b` with `Frame.build` and then parsing the resulting bytes with
the generic receive path reproduces payload `b` exactly and never raises
`InvalidFrame`. -/
theorem c1_build_parse_roundtrip (opcode unk1 unk2 : Nat) (payload : List Nat)
    (hop : opcode ≤ 255) (hu1 : unk1 ≤ 255) (hbytes : ∀ b ∈ payload, b ≤ 255)
    (hlen : payload.length ≤ 31) :
    ∃ f, Frame.receive (Frame.build opcode unk1 unk2 payload) = .ok f
      ∧ f.payload = payload := by
  obtain ⟨c, hc⟩ := build_receive_ok opcode unk1 unk2 payload hlen
  exact ⟨_, hc, rfl⟩

theorem c1_witness :
    ∃ f, Frame.receive (Frame.build 1 2 0 [65]) = .ok f ∧ f.payload = [65] :=
  c1_build_parse_roundtrip 1 2 0 [65] (by norm_num) (by norm_num) (by decide) (by decide)

/-- Claim C1 counterexample: for the 32-byte payload `List.replicate 32 0` the
claim as stated fails: the built frame's 5-bit length field wraps to 0 and
parsing the built bytes raises `InvalidFrame` (so the payload is certainly not
reproduced). -/
theorem c1_counterexample :
    Frame.receive (Frame.build 1 2 0 (List.replicate 32 0)) = .error .invalidFrame := by
  rfl

/-- Claim C2 (amended: `Frame.build` never fails — there is no `PayloadTooLarge`
anywhere in the code.  It totally emits header, payload, pad and checksum for
*every* payload; for payloads of at most 31 bytes the built frame parses back
successfully with the same payload, while for longer payloads the 5-bit length
field silently wraps modulo 32, see the counterexample). -/
theorem c2_build_length_behavior :
    (∀ opcode unk1 unk2 : Nat, ∀ payload : List Nat,
        (Frame.build opcode unk1 unk2 payload).length
          = 3 + payload.length + (if 0 < payload.length then 1 else 0) + 2)
    ∧ (∀ opcode unk1 unk2 : Nat, ∀ payload : List Nat, payload.length ≤ 31 →
        ∃ f, Frame.receive (Frame.build opcode unk1 unk2 payload) = .ok f
          ∧ f.payload = payload) := by
  constructor
  · intro opcode unk1 unk2 payload
    by_cases h : 0 < payload.length <;>
      simp [Frame.build, List.length_append, h] <;> omega
  · intro opcode unk1 unk2 payload hlen
    obtain ⟨c, hc⟩ := build_receive_ok opcode unk1 unk2 payload hlen
    exact ⟨_, hc, rfl⟩

theorem c2_witness :
    ∃ f, Frame.receive (Frame.build 9 2 0 [7, 8]) = .ok f ∧ f.payload = [7, 8] :=
  c2_build_length_behavior.2 9 2 0 [7, 8] (by decide)

/-- Claim C2 counterexample: a payload of 32 bytes does not fail with
`PayloadTooLarge` (or anything else): `Frame.build` happily returns a 38-byte
frame, and its length/flags byte (index 2) is 0 — the length field wrapped
modulo 32. -/
theorem c2_counterexample :
    (Frame.build 3 2 0 (List.replicate 32 7)).length = 38
      ∧ (Frame.build 3 2 0 (List.replicate 32 7)).getD 2 999 = 0 := by
  decide

/-- Claim C5 (amended: the 32-bit packed round-trip holds exactly for years
2000–2063 — the packed year field is only 6 bits wide, so years 2064–2255
cannot survive it, see the counterexample; the separate 6-byte SetTime
encoding round-trips for the full year range 2000–2255, independently). -/
theorem c5_timestamp_roundtrips (d : DateTime) (hval : isValidDateTime d) :
    (2000 ≤ d.year → d.year ≤ 2063 → timestampToDate (encode_bits d) = some d)
    ∧ (2000 ≤ d.year → d.year ≤ 2255 →
        dateToTimestamp d = some [d.second, d.minute, d.hour, d.day, d.month, d.year - 2000]
        ∧ SetTimeResponseFrame.parse_payload
            [d.second, d.minute, d.hour, d.day, d.month, d.year - 2000] = .ok d) := by
  obtain ⟨hmo1, hmo2, hd1, hd2, hh, hmi, hs⟩ := hval
  have hdim : daysInMonth d.year d.month ≤ 31 := by
    unfold daysInMonth
    split_ifs <;> omega
  constructor
  · intro hy0 hy1
    have hsum : encode_bits d = 2 ^ 26 * d.second + (2 ^ 20 * d.minute + (2 ^ 15 * d.hour
        + (2 ^ 10 * d.day + (2 ^ 6 * d.month + (d.year - 2000))))) := by
      unfold encode_bits
      rw [Nat.or_comm (d.year - 2000), or_shift_add _ _ _ (by omega)]
      rw [Nat.or_comm _ (d.day <<< 10), or_shift_add _ _ _ (by omega)]
      rw [Nat.or_comm _ (d.hour <<< 15), or_shift_add _ _ _ (by omega)]
      rw [Nat.or_comm _ (d.minute <<< 20), or_shift_add _ _ _ (by omega)]
      rw [Nat.or_comm _ (d.second <<< 26), or_shift_add _ _ _ (by omega)]
    have h63 : (0x3F : Nat) = 2 ^ 6 - 1 := by norm_num
    have h15 : (0x0F : Nat) = 2 ^ 4 - 1 := by norm_num
    have h31 : (0x1F : Nat) = 2 ^ 5 - 1 := by norm_num
    have e1 : encode_bits d &&& 0x3F = d.year - 2000 := by
      rw [h63, Nat.and_pow_two_sub_one_eq_mod, hsum]
      omega
    have e2 : (encode_bits d >>> 6) &&& 0x0F = d.month := by
      rw [h15, Nat.and_pow_two_sub_one_eq_mod, Nat.shiftRight_eq_div_pow, hsum]
      omega
    have e3 : (encode_bits d >>> 10) &&& 0x1F = d.day := by
      rw [h31, Nat.and_pow_two_sub_one_eq_mod, Nat.shiftRight_eq_div_pow, hsum]
      omega
    have e4 : (encode_bits d >>> 15) &&& 0x1F = d.hour := by
      rw [h31, Nat.and_pow_two_sub_one_eq_mod, Nat.shiftRight_eq_div_pow, hsum]
      omega
    have e5 : (encode_bits d >>> 20) &&& 0x3F = d.minute := by
      rw [h63, Nat.and_pow_two_sub_one_eq_mod, Nat.shiftRight_eq_div_pow, hsum]
      omega
    have e6 : (encode_bits d >>> 26) &&& 0x3F = d.second := by
      rw [h63, Nat.and_pow_two_sub_one_eq_mod, Nat.shiftRight_eq_div_pow, hsum]
      omega
    unfold timestampToDate
    rw [e1, e2, e3, e4, e5, e6, show d.year - 2000 + 2000 = d.year by omega]
    unfold datetime_mk
    rw [if_pos ⟨by omega, by omega, hmo1, hmo2, hd1, hd2, hh, hmi, hs⟩]
  · intro hy0 hy1
    constructor
    · unfold dateToTimestamp
      rw [if_pos ⟨by omega, by omega, by omega, by omega, by omega, hy0, hy1⟩]
    · unfold SetTimeResponseFrame.parse_payload
      rw [if_pos (by simp)]
      simp only [List.getD_cons_zero, List.getD_cons_succ]
      rw [show d.year - 2000 + 2000 = d.year by omega]
      unfold datetime_mk
      rw [if_pos ⟨by omega, by omega, hmo1, hmo2, hd1, hd2, hh, hmi, hs⟩]

theorem c5_witness :
    timestampToDate (encode_bits ⟨2021, 5, 15, 10, 30, 40⟩)
      = some ⟨2021, 5, 15, 10, 30, 40⟩ :=
  (c5_timestamp_roundtrips ⟨2021, 5, 15, 10, 30, 40⟩ (by decide)).1
    (by norm_num) (by norm_num)

/-- Claim C5 counterexample: the valid datetime 2064-01-01 00:00:00 has its year
inside the claimed range [2000, 2255], yet packing it per the §4.2 bit layout
and decoding does not reproduce it: `2064 - 2000 = 64` overflows the 6-bit
year field (its overflow bit lands on the month field) and the decode yields
year 2000. -/
theorem c5_counterexample :
    isValidDateTime ⟨2064, 1, 1, 0, 0, 0⟩
      ∧ 2000 ≤ 2064 ∧ (2064 : Nat) ≤ 2255
      ∧ timestampToDate (encode_bits ⟨2064, 1, 1, 0, 0, 0⟩)
          ≠ some ⟨2064, 1, 1, 0, 0, 0⟩ := by
  decide

/-- No run of the record loop can produce a checksum-mismatch error: the loop
contains no CRC comparison at all. -/
theorem readRecordsFuel_ne_invalidFrame (fuel : Nat) (s : List Nat) :
    readRecordsFuel fuel s ≠ .error .invalidFrame := by
  induction fuel generalizing s with
  | zero => cases s <;> simp [readRecordsFuel]
  | succ n ih =>
    cases s with
    | nil => simp [readRecordsFuel]
    | cons l rest =>
      by_cases h0 : l = 0
      · simp [readRecordsFuel, h0]
      · by_cases h5 : l < 5
        · simp [readRecordsFuel, h0, h5]
        · by_cases hc : (rest.take l).length = l
          · simp only [readRecordsFuel, h0, h5, hc, if_true, if_false, ite_true, ite_false,
              if_neg, if_pos]
            cases hts : timestampToDate (beBytesToNat ((rest.take l).drop (l - 4))) with
            | none => simp [readRecordsFuel, h0, h5, hc, hts]
            | some d =>
              cases hrec : readRecordsFuel n (rest.drop l) with
              | error e =>
                have hne := ih (rest.drop l)
                rw [hrec] at hne
                simp [readRecordsFuel, h0, h5, hc, hts, hrec]
                intro heq
                exact hne (by rw [heq])
              | ok p => simp [readRecordsFuel, h0, h5, hc, hts, hrec]
          · have hc2 : ¬ l ≤ rest.length := by
              rw [List.length_take] at hc
              omega
            simp [readRecordsFuel, h0, h5, hc2]

/-- Helper `readRecords` can never fail with a checksum mismatch. -/
theorem readRecords_ne_invalidFrame (s : List Nat) :
    readRecords s ≠ .error .invalidFrame :=
  readRecordsFuel_ne_invalidFrame _ _

/-- The whole GetData receive path can never raise `InvalidFrameException`:
its overridden `receive_data` performs no checksum read or comparison. -/
theorem getdata_receive_ne_invalidFrame (s : List Nat) :
    GetDataResponseFrame.receive s ≠ .error .invalidFrame := by
  simp only [GetDataResponseFrame.receive, streamRead]
  split_ifs with h1 h2
  · cases hr : readRecords (List.drop 8 (List.drop 2 s)) with
    | error e =>
      have hne := readRecords_ne_invalidFrame (List.drop 8 (List.drop 2 s))
      rw [hr] at hne
      have hene : e ≠ .invalidFrame := fun h => hne (by rw [h])
      simp only [hr]
      intro heq
      apply hene
      injection heq
    | ok p => simp [hr]
  · simp
  · simp

/-- Claim C3: contrary to the claim, the GetData receive path reads no trailing
CRC and validates nothing after the zero terminator of the record list.  On a
concrete response stream whose trailing two bytes are a bogus checksum the
parse succeeds, leaving those two bytes unconsumed; and no GetData parse can
ever raise `InvalidFrame`. -/
theorem c3_getdata_skips_crc :
    GetDataResponseFrame.receive ([7, 2] ++ [1, 2, 3, 4, 5, 6, 7, 8] ++ [0] ++ [0xDE, 0xAD])
      = .ok ⟨7, 2, 0x0102030405060708, [], [0xDE, 0xAD]⟩
    ∧ ∀ s : List Nat, GetDataResponseFrame.receive s ≠ .error .invalidFrame :=
  ⟨rfl, getdata_receive_ne_invalidFrame⟩

/-- A well-formed wire record for the GetData body, as the claim describes it:
`sym` the symbology byte, `data` the barcode bytes, `tsBytes` the 4 bytes of
the big-endian packed timestamp, `date` its decoded calendar form. -/
structure RecSpec where
  sym : Nat
  data : List Nat
  tsBytes : List Nat
  date : DateTime

/-- The wire form of one record: length byte `data.length + 5`, symbology
byte, barcode bytes, 4 timestamp bytes. -/
def encodeRecord (r : RecSpec) : List Nat :=
  (r.data.length + 5) :: r.sym :: (r.data ++ r.tsBytes)

/-- The wire form of a record list (without the zero terminator). -/
def encodeRecords : List RecSpec → List Nat
  | [] => []
  | r :: rs => encodeRecord r ++ encodeRecords rs

/-- Well-formedness of one wire record: the length byte fits in a byte, the
timestamp is 4 bytes and decodes successfully. -/
def goodRec (r : RecSpec) : Prop :=
  r.data.length ≤ 250 ∧ r.tsBytes.length = 4
    ∧ timestampToDate (beBytesToNat r.tsBytes) = some r.date

instance (r : RecSpec) : Decidable (goodRec r) := by
  unfold goodRec
  exact inferInstance

theorem encodeRecords_length_ge (rs : List RecSpec) :
    rs.length ≤ (encodeRecords rs).length := by
  induction rs with
  | nil => simp [encodeRecords]
  | cons r rs ih =>
    simp only [encodeRecords, encodeRecord, List.length_append, List.length_cons]
    omega

/-- Running the record loop over an encoded well-formed record list followed
by the zero terminator yields exactly those records, in order, and leaves the
trailing bytes unconsumed. -/
theorem readRecordsFuel_encode (rs : List RecSpec) (trailing : List Nat) (fuel : Nat)
    (hgood : ∀ r ∈ rs, goodRec r) (hfuel : rs.length < fuel) :
    readRecordsFuel fuel (encodeRecords rs ++ 0 :: trailing)
      = .ok (rs.map fun r => ⟨r.sym, r.data, r.date⟩, trailing) := by
  induction rs generalizing fuel with
  | nil =>
    cases fuel with
    | zero => omega
    | succ n => simp [encodeRecords, readRecordsFuel]
  | cons r rs ih =>
    cases fuel with
    | zero => omega
    | succ n =>
      obtain ⟨hd250, hts4, htsdec⟩ := hgood r (by simp)
      have hrest : ∀ x ∈ rs, goodRec x := fun x hx => hgood x (by simp [hx])
      have hchunklen : (r.sym :: (r.data ++ r.tsBytes)).length = r.data.length + 5 := by
        rw [List.length_cons, List.length_append, hts4]
      have hstream : encodeRecords (r :: rs) ++ 0 :: trailing
          = (r.data.length + 5) :: ((r.sym :: (r.data ++ r.tsBytes))
              ++ (encodeRecords rs ++ 0 :: trailing)) := by
        simp [encodeRecords, encodeRecord]
      rw [hstream]
      simp only [readRecordsFuel]
      rw [if_neg (by omega), if_neg (by omega)]
      rw [List.take_left' hchunklen, List.drop_left' hchunklen, if_pos hchunklen]
      rw [show r.data.length + 5 - 4 = r.data.length + 1 from by omega]
      rw [List.drop_succ_cons, List.drop_left, htsdec]
      rw [ih n hrest (by rw [List.length_cons] at hfuel; omega)]
      rw [show r.data.length + 5 - 5 = r.data.length from by omega]
      simp [List.take_left]

/-- Claim C7: for every GetData response body the decoder reads an 8-byte
big-endian device id, then repeatedly reads a 1-byte record length where 0
terminates the list; each nonzero length `L` is followed by exactly `L` bytes
split as 1 symbology byte, `L - 5` barcode bytes and a 4-byte big-endian
packed timestamp decoded via `timestampToDate`; records are appended in
arrival order. -/
theorem c7_getdata_decoding (op u1 : Nat) (idB : List Nat) (rs : List RecSpec)
    (trailing : List Nat) (hid : idB.length = 8) (hgood : ∀ r ∈ rs, goodRec r) :
    GetDataResponseFrame.receive ([op, u1] ++ idB ++ (encodeRecords rs ++ 0 :: trailing))
      = .ok ⟨op, u1, beBytesToNat idB, rs.map fun r => ⟨r.sym, r.data, r.date⟩,
          trailing⟩ := by
  have hstream : [op, u1] ++ idB ++ (encodeRecords rs ++ 0 :: trailing)
      = op :: u1 :: (idB ++ (encodeRecords rs ++ 0 :: trailing)) := by simp
  rw [hstream]
  simp only [GetDataResponseFrame.receive, streamRead, List.take_succ_cons, List.take_zero,
    List.drop_succ_cons, List.drop_zero, List.length_cons, List.length_nil,
    List.getD_cons_zero, List.getD_cons_succ]
  rw [List.take_left' hid, List.drop_left' hid]
  rw [if_pos trivial, if_pos hid]
  have hfuel : rs.length < (encodeRecords rs ++ 0 :: trailing).length := by
    have := encodeRecords_length_ge rs
    simp only [List.length_append, List.length_cons]
    omega
  rw [show readRecords (encodeRecords rs ++ 0 :: trailing)
      = .ok (rs.map fun r => ⟨r.sym, r.data, r.date⟩, trailing) from
    readRecordsFuel_encode rs trailing _ hgood hfuel]

theorem c7_witness :
    GetDataResponseFrame.receive
        ([7, 2] ++ [1, 2, 3, 4, 5, 6, 7, 8]
          ++ ([10, 9, 49, 50, 51, 52, 53, 161, 229, 61, 85] ++ 0 :: [222, 173]))
      = .ok ⟨7, 2, 0x0102030405060708,
          [⟨9, [49, 50, 51, 52, 53], ⟨2021, 5, 15, 10, 30, 40⟩⟩], [222, 173]⟩ := by
  have h := c7_getdata_decoding 7 2 [1, 2, 3, 4, 5, 6, 7, 8]
    [⟨9, [49, 50, 51, 52, 53], [161, 229, 61, 85], ⟨2021, 5, 15, 10, 30, 40⟩⟩] [222, 173]
    (by decide) (by decide)
  simpa [encodeRecords, encodeRecord] using h

/-- Claim C8 (amended: the fixed-size decode needs exactly 17 bytes — 1 skipped
byte, the 8-byte big-endian device id and the 8-byte firmware string — not the
9 bytes the claim's parenthetical reports): a 17-byte payload decodes to those
fields; any other payload length fails with the struct unpack error the spec
calls `MalformedPayload`. -/
theorem c8_interrogate_payload (payload : List Nat) :
    (payload.length = 17 →
      InterrogateResponseFrame.parse_payload payload
        = .ok (beBytesToNat ((payload.drop 1).take 8), (payload.drop 9).take 8))
    ∧ (payload.length ≠ 17 →
      InterrogateResponseFrame.parse_payload payload = .error .structError) := by
  unfold InterrogateResponseFrame.parse_payload
  constructor
  · intro h
    rw [if_pos h]
  · intro h
    rw [if_neg h]

theorem c8_witness :
    InterrogateResponseFrame.parse_payload
        [0, 0xAA, 0xBB, 0xCC, 0xDD, 0xEE, 0xFF, 0x00, 0x11, 86, 49, 46, 48, 48, 0, 0, 0]
      = .ok (0xAABBCCDDEEFF0011, [86, 49, 46, 48, 48, 0, 0, 0]) := by
  have h := (c8_interrogate_payload
    [0, 0xAA, 0xBB, 0xCC, 0xDD, 0xEE, 0xFF, 0x00, 0x11, 86, 49, 46, 48, 48, 0, 0, 0]).1 rfl
  rw [h]
  rfl

/-- Claim C8 counterexample: a 9-byte payload — the size the claim's
parenthetical calls the expected one — fails the decode, while a 17-byte
payload succeeds. -/
theorem c8_counterexample :
    InterrogateResponseFrame.parse_payload [0, 1, 2, 3, 4, 5, 6, 7, 8] = .error .structError
    ∧ InterrogateResponseFrame.parse_payload
        [0, 1, 2, 3, 4, 5, 6, 7, 8, 9, 10, 11, 12, 13, 14, 15, 16]
      = .ok (0x0102030405060708, [9, 10, 11, 12, 13, 14, 15, 16]) :=
  ⟨rfl, rfl⟩

/-- Claim C9 (amended): the code has no transport-error path and does not abort
at a short read; what does hold is that no partially populated frame ever
escapes: whenever the generic receive path returns a frame, the payload has
exactly the declared length and the stream contained the complete frame —
header, length byte, payload, pad and checksum.  On any stream shorter than
that, the parse returns an error (a struct unpack error at the next
fixed-size read). -/
theorem c9_no_partial_frame (s : List Nat) (f : RFrame)
    (h : Frame.receive s = .ok f) :
    f.payload.length = f.flen
      ∧ 3 + f.flen + (if 0 < f.flen then 1 else 0) + 2 ≤ s.length := by
  simp only [Frame.receive, streamRead] at h
  split_ifs at h with h1 h2 hpad h3 h4 h5 h6
  all_goals first
    | exact Except.noConfusion h
    | (rw [Except.ok.injEq] at h
       subst h
       simp only [List.length_take, List.length_drop] at *
       split_ifs with hp <;> omega)

theorem c9_witness :
    (RFrame.payload ⟨1, 2, 0, 0, [], 40926⟩).length = RFrame.flen ⟨1, 2, 0, 0, [], 40926⟩
      ∧ 3 + RFrame.flen ⟨1, 2, 0, 0, [], 40926⟩
          + (if 0 < RFrame.flen ⟨1, 2, 0, 0, [], 40926⟩ then 1 else 0) + 2
        ≤ ([1, 2, 0, 159, 222] : List Nat).length :=
  c9_no_partial_frame [1, 2, 0, 159, 222] ⟨1, 2, 0, 0, [], 40926⟩ rfl

/-- Claim C9 counterexample: `_stream_read` performs no length check — on an
exhausted stream it returns the short remainder without any error — and a
parse of a stream truncated mid-payload does not abort at the short read: the
code reads on (pad, checksum) and only fails at the checksum unpack, with a
struct error rather than any transport error. -/
theorem c9_counterexample :
    streamRead [7] 5 = ([7], []) ∧ Frame.receive [1, 2, 5, 7] = .error .structError :=
  ⟨rfl, rfl⟩

end PyOPN
